import Mathlib

/-!
Verification of the email-ingestion / ticket-routing core of the
multi-domain-email-routing repository.

The development shallowly embeds the two JavaScript modules that implement the
pipeline glue:

* `src/integrations/zammad.js` — the `ZammadIntegration` class
  (`constructor`, `createTicket`, `findOrCreateCustomer`, `findMatchingRule`);
* `src/cloudflare-worker/email-to-zammad.js` — the worker entry point
  (`email`, `parseEmail`, `createZammadTicket`, `findOrCreateCustomer`,
  `extractName`).

External HTTP effects (the Zammad API, message forwarding, MIME parsing) are
modelled as explicit environments of result-valued functions, and each embedded
operation additionally returns the list of upstream calls it issued, so that
call ordering, call counts and frame properties can be stated and proved.

JavaScript-specific semantics are embedded explicitly: `x || y` on strings
treats both `undefined`/`null` and the empty string as falsy (`jsOrStr`,
`jsTruthy`), and `String.prototype.includes` is case-sensitive substring
containment (`strContainsSub`), combined with `toLowerCase` where the source
lowercases (`lowerStr`; ASCII case folding, which is what all configuration
keywords in the repository use).
-/

/-- JavaScript `s || d` for an optional string `s`: `undefined`, `null` and
the empty string all fall through to the default. -/
def jsOrStr (s : Option String) (d : String) : String :=
  match s with
  | none => d
  | some v => if v = "" then d else v

/-- JavaScript truthiness of an optional string: `undefined`, `null` and `""`
are falsy, every other string is truthy. -/
def jsTruthy (s : Option String) : Bool :=
  match s with
  | none => false
  | some v => v != ""

/-- ASCII lower-casing of a string, character by character (the embedding of
`String.prototype.toLowerCase` as used on the ASCII configuration keywords
and address/subject fields of this repository). -/
def lowerStr (s : String) : String :=
  String.mk (s.data.map Char.toLower)

/-- Substring containment on the underlying character lists (the embedding of
`String.prototype.includes`). -/
def strContainsSub (s sub : String) : Bool :=
  (List.range (s.data.length + 1)).any (fun i => sub.data.isPrefixOf (s.data.drop i))

/-- Splitting a string at every occurrence of the character with code
`sepCode`, accumulator-style over the character list; mirrors JavaScript
`String.prototype.split` with a single-character separator
(`"".split(sep)` gives `[""]`, trailing separators give a trailing `""`). -/
def splitCharAux (sepCode : Nat) : List Char → List Char → List String
  | [], acc => [String.mk acc.reverse]
  | c :: rest, acc =>
    if c.toNat = sepCode then
      String.mk acc.reverse :: splitCharAux sepCode rest []
    else
      splitCharAux sepCode rest (c :: acc)

/-- JavaScript `s.split(<character with code sepCode>)`. -/
def splitChar (s : String) (sepCode : Nat) : List String :=
  splitCharAux sepCode s.data []

/-- JavaScript `Array.prototype.join(sep)`. -/
def joinWith (sep : String) : List String → String
  | [] => ""
  | [x] => x
  | x :: y :: rest => x ++ sep ++ joinWith sep (y :: rest)

/-- JavaScript `customerEmail.split('@')[0]` (character code 64 is `@`). -/
def localPart (s : String) : String :=
  (splitChar s 64).headD s

/-- JavaScript `customerName.split(' ')[0] || customerName` (code 32 is the
space character). -/
def jsFirstName (customerName : String) : String :=
  let h := (splitChar customerName 32).headD ""
  if h = "" then customerName else h

/-- JavaScript `customerName.split(' ').slice(1).join(' ') || ''`. -/
def jsLastName (customerName : String) : String :=
  joinWith " " ((splitChar customerName 32).drop 1)

/-! ## Data model shared by both modules -/

/-- A customer record of the external ticketing system. -/
structure Customer where
  id : Nat
  firstname : String
  lastname : String
  email : String
deriving DecidableEq

/-- The customer data assembled from an inbound email before find-or-create. -/
structure CustomerData where
  email : String
  firstname : String
  lastname : String
deriving DecidableEq

/-- The JSON body POSTed to `/users`: the customer data spread together with
`roles: ['Customer']`. -/
structure CreateUserPayload where
  email : String
  firstname : String
  lastname : String
  roles : List String
deriving DecidableEq

/-- An upstream failure as surfaced by the HTTP client of
`src/integrations/zammad.js` (axios): an optional HTTP status (absent for
network-level errors) and a message. -/
structure UpstreamError where
  status : Option Nat
  message : String
deriving DecidableEq

/-- The response to a successful ticket POST (only the id is consumed). -/
structure TicketResp where
  id : Nat
deriving DecidableEq

/-- The `match` object of a routing rule: optional keyword lists for the
recipient and the subject (`rule.match.toContains`,
`rule.match.subjectContains`). -/
structure MatchSpec where
  toContains : Option (List String) := none
  subjectContains : Option (List String) := none
deriving DecidableEq

/-- The `action` object of a routing rule. -/
structure RuleAction where
  template : Option String := none
  priority : Option String := none
  tags : Option (List String) := none
deriving DecidableEq

/-- A routing rule (`{name, match, action}`); the JS field `match` is named
`matchSpec` here because `match` is reserved in Lean. -/
structure Rule where
  name : String := ""
  matchSpec : MatchSpec := {}
  action : RuleAction := {}
deriving DecidableEq

/-- The `zammad` sub-object of a domain configuration
(`domainConfig.zammad.group`, `domainConfig.zammad.priority`). -/
structure ZammadConfig where
  group : Option String := none
  priority : Option String := none
deriving DecidableEq

/-- The slice of a domain configuration consumed by
`src/integrations/zammad.js`: the optional `zammad` sub-object and the ordered
rule list (`[]` here models both an absent and an empty JS `rules` array,
which the source treats identically via `rules && rules.length > 0`). -/
structure DomainConfig where
  zammad : Option ZammadConfig := none
  rules : List Rule := []
deriving DecidableEq

/-- The email object consumed by `ZammadIntegration.createTicket`: `from` may
be a bare address string (`fromName = none`) or an `{address, name}` pair. -/
structure EmailMsg where
  fromAddress : String
  fromName : Option String := none
  toAddr : Option String := none
  subject : Option String := none
  body : Option String := none
  text : Option String := none
  html : Option String := none
deriving DecidableEq

/-- The `article` sub-object of the ticket payload built by
`src/integrations/zammad.js`; the JS keys `from`/`to`/`type` are named
`fromAddr`/`toAddr`/`type` here. -/
structure Article where
  subject : String
  body : String
  type : String
  sender : String
  fromAddr : String
  toAddr : Option String
  content_type : String
deriving DecidableEq

/-- The ticket payload POSTed to `/tickets` by `src/integrations/zammad.js`. -/
structure TicketData where
  title : String
  group : String
  customer_id : Nat
  article : Article
  priority : String
  state : String
  tags : Option String
deriving DecidableEq

/-- The configuration object read by the `ZammadIntegration` constructor. -/
structure Config where
  ZAMMAD_URL : Option String := none
  ZAMMAD_API_TOKEN : Option String := none
  ZAMMAD_ENABLED : Option String := none
deriving DecidableEq

/-- The state the `ZammadIntegration` constructor leaves on the instance. -/
structure Integration where
  baseUrl : String
  apiToken : Option String
  enabled : Bool
deriving DecidableEq

/-- One upstream API call issued by `src/integrations/zammad.js`, recorded in
issue order. -/
inductive ApiCall where
  | searchUsers (query : String)
  | createUser (payload : CreateUserPayload)
  | postTicket (data : TicketData)
deriving DecidableEq

/-- The external Zammad API as seen by `src/integrations/zammad.js` (axios):
each endpoint either returns a value or fails with an `UpstreamError`
(non-2xx response or network error, both of which axios turns into a thrown
error). -/
structure ZEnv where
  search : String → Except UpstreamError (List Customer)
  createUser : CreateUserPayload → Except UpstreamError Customer
  postTicket : TicketData → Except UpstreamError TicketResp

/-! ## `src/integrations/zammad.js` -/

/-- The `ZammadIntegration` constructor: default base URL, token taken from
config, `enabled` is `ZAMMAD_ENABLED !== 'false'` and is forced to `false`
when enabled without an API token. -/
def mkIntegration (config : Config) : Integration :=
  let enabled0 : Bool := !(config.ZAMMAD_ENABLED == some "false")
  let enabled : Bool :=
    if !(jsTruthy config.ZAMMAD_API_TOKEN) && enabled0 then false else enabled0
  { baseUrl := jsOrStr config.ZAMMAD_URL "https://help.vln.gg"
  , apiToken := config.ZAMMAD_API_TOKEN
  , enabled := enabled }

/-- The body POSTed to `/users`: `{...customerData, roles: ['Customer']}`. -/
def userPayload (data : CustomerData) : CreateUserPayload :=
  { email := data.email, firstname := data.firstname, lastname := data.lastname
  , roles := ["Customer"] }

/-- `ZammadIntegration.findOrCreateCustomer`: search `/users/search` for the
email; a thrown search error propagates (the catch rethrows); a non-empty
result list returns its first element; otherwise POST `/users`, propagating
its error likewise. The second component records the upstream calls issued,
in order. -/
def findOrCreateCustomer (env : ZEnv) (data : CustomerData) :
    Except UpstreamError Customer × List ApiCall :=
  match env.search data.email with
  | .error e => (.error e, [.searchUsers data.email])
  | .ok (c :: _) => (.ok c, [.searchUsers data.email])
  | .ok [] =>
    match env.createUser (userPayload data) with
    | .error e =>
      (.error e, [.searchUsers data.email, .createUser (userPayload data)])
    | .ok c =>
      (.ok c, [.searchUsers data.email, .createUser (userPayload data)])

/-- One rule predicate of `ZammadIntegration.findMatchingRule`: `matches`
starts `true`; a declared `toContains` list requires some keyword to occur in
`(email.to || '').toLowerCase()`, a declared `subjectContains` list likewise
for the subject; undeclared fields impose nothing. -/
def ruleMatches (email : EmailMsg) (rule : Rule) : Bool :=
  let m1 :=
    match rule.matchSpec.toContains with
    | none => true
    | some kws =>
      kws.any (fun kw => strContainsSub (lowerStr (jsOrStr email.toAddr "")) (lowerStr kw))
  let m2 :=
    match rule.matchSpec.subjectContains with
    | none => true
    | some kws =>
      kws.any (fun kw => strContainsSub (lowerStr (jsOrStr email.subject "")) (lowerStr kw))
  m1 && m2

/-- `ZammadIntegration.findMatchingRule`: scan the rules in declared order and
return the first one whose declared predicates all hold, `none` when no rule
matches. -/
def findMatchingRule (email : EmailMsg) : List Rule → Option Rule
  | [] => none
  | r :: rest => if ruleMatches email r then some r else findMatchingRule email rest

/-- The customer data `createTicket` assembles before find-or-create:
`customerEmail = email.from.address || email.from`,
`customerName = email.from.name || customerEmail.split('@')[0]`, then first and
last name split off the name on spaces. -/
def customerDataOf (email : EmailMsg) : CustomerData :=
  let customerEmail := email.fromAddress
  let customerName := jsOrStr email.fromName (localPart customerEmail)
  { email := customerEmail
  , firstname := jsFirstName customerName
  , lastname := jsLastName customerName }

/-- The `ticketData.tags` assignment of `createTicket`: only when the domain
has a non-empty rule list, a rule matches, and that rule's action declares
`tags`, are the tags comma-joined onto the payload. -/
def ticketTags (email : EmailMsg) (rules : List Rule) : Option String :=
  if rules.isEmpty then none
  else
    match findMatchingRule email rules with
    | some r =>
      match r.action.tags with
      | some ts => some (joinWith "," ts)
      | none => none
    | none => none

/-- The ticket payload built by `ZammadIntegration.createTicket`: title and
article subject from the subject (placeholder `(No Subject)` when absent or
empty), article body `email.body || email.text || ''`, `content_type` decided
by `email.html` truthiness, group/priority from the domain's `zammad`
sub-object with defaults `Users` / `2 normal`, state `new`, tags per
`ticketTags`. -/
def mkTicketData (email : EmailMsg) (dc : DomainConfig) (customer : Customer) :
    TicketData :=
  let zc := dc.zammad.getD {}
  { title := jsOrStr email.subject "(No Subject)"
  , group := jsOrStr zc.group "Users"
  , customer_id := customer.id
  , article :=
    { subject := jsOrStr email.subject "(No Subject)"
    , body := jsOrStr email.body (jsOrStr email.text "")
    , type := "email"
    , sender := "Customer"
    , fromAddr := email.fromAddress
    , toAddr := email.toAddr
    , content_type := if jsTruthy email.html then "text/html" else "text/plain" }
  , priority := jsOrStr zc.priority "2 normal"
  , state := "new"
  , tags := ticketTags email dc.rules }

/-- `ZammadIntegration.createTicket`: `null` immediately when disabled; then
find-or-create the customer (its thrown error propagates through the catch,
which rethrows), build the payload and POST `/tickets`, propagating a failed
POST the same way. The second component records the upstream calls issued. -/
def createTicket (integ : Integration) (env : ZEnv) (email : EmailMsg)
    (dc : DomainConfig) : Except UpstreamError (Option TicketResp) × List ApiCall :=
  if integ.enabled then
    match findOrCreateCustomer env (customerDataOf email) with
    | (.error e, evs) => (.error e, evs)
    | (.ok customer, evs) =>
      let td := mkTicketData email dc customer
      match env.postTicket td with
      | .error e => (.error e, evs ++ [.postTicket td])
      | .ok resp => (.ok (some resp), evs ++ [.postTicket td])
  else (.ok none, [])

/-- The iteration of `findMatchingRule` with the traversed rule list threaded
through as state, so the frame property "the call leaves the rule list
unchanged" is statable: the second component is the rule list as it stands
after the scan. -/
def findMatchingRuleSt (email : EmailMsg) : List Rule → Option Rule × List Rule
  | [] => (none, [])
  | r :: rest =>
    if ruleMatches email r then (some r, r :: rest)
    else
      let p := findMatchingRuleSt email rest
      (p.fst, r :: p.snd)

/-- `findMatchingRule` as invoked from `createTicket`
(`this.findMatchingRule(email, domainConfig.rules)`) with the whole domain
configuration threaded through as state. -/
def findMatchingRuleDc (email : EmailMsg) (dc : DomainConfig) :
    Option Rule × DomainConfig :=
  let p := findMatchingRuleSt email dc.rules
  (p.fst, { dc with rules := p.snd })

/-! ## `src/cloudflare-worker/email-to-zammad.js` -/

/-- The worker's environment bindings (Cloudflare secrets/vars). -/
structure WorkerEnv where
  FORWARD_TO : Option String := none
  ZAMMAD_URL : Option String := none
  ZAMMAD_API_TOKEN : Option String := none
deriving DecidableEq

/-- A raw transport message as delivered by Cloudflare Email Routing; its
content is opaque to the pipeline until parsed. -/
structure RawMsg where
  raw : String
deriving DecidableEq

/-- The structured email produced by the worker's `parseEmail`. -/
structure WorkerEmail where
  fromAddr : String
  toAddr : String
  subject : Option String := none
  text : Option String := none
  html : Option String := none
deriving DecidableEq

/-- The outcome of a worker `fetch`: a value, a non-2xx HTTP response
(`response.ok` false, no exception), or a network error (thrown). -/
inductive FetchResult (α : Type) where
  | ok (value : α)
  | httpError (status : Nat) (body : String)
  | netError (msg : String)
deriving DecidableEq

/-- The `article` sub-object of the worker's ticket payload (it additionally
carries `internal: false`, and its `to` is always present). -/
structure WArticle where
  subject : String
  body : String
  type : String
  sender : String
  fromAddr : String
  toAddr : String
  content_type : String
  internal : Bool
deriving DecidableEq

/-- The ticket payload POSTed to `/tickets` by the worker (no tags). -/
structure WTicketData where
  title : String
  group : String
  customer_id : Nat
  article : WArticle
  priority : String
  state : String
deriving DecidableEq

/-- One observable effect of a worker invocation, recorded in issue order:
the three upstream API calls, a successful ticket creation, and a forwarding
attempt. -/
inductive WEvent where
  | searchUsers (query : String)
  | createUser (payload : CreateUserPayload)
  | postTicket (data : WTicketData)
  | ticketCreated (resp : TicketResp)
  | forward (addr : String)
deriving DecidableEq

/-- The world outside one worker invocation: MIME parsing (may throw), the
three Zammad endpoints, and the forwarding transport. `forwardOk n addr` is
the success of the `n`-th forwarding attempt within the invocation (the
handler may forward a second time from its catch block). -/
structure WorkerWorld where
  parseResult : RawMsg → Except String WorkerEmail
  searchResult : String → FetchResult (List Customer)
  createUserResult : CreateUserPayload → FetchResult Customer
  postTicketResult : WTicketData → FetchResult TicketResp
  forwardOk : Nat → String → Bool

/-- The terminal outcome of one worker invocation: the try block ran to the
end, the catch block recovered, or the catch block itself threw (a failed
forward inside the catch). -/
inductive HandlerOutcome where
  | completed (ticket : Option TicketResp)
  | errorRecovered
  | errorRaised
deriving DecidableEq

/-- The worker's `extractName`: the regex `^"?([^"<]+)"?\s*<` applied to the
from header — an optional double quote (character code 34), a non-empty run of
characters other than the double quote and `<` (code 60), an optional closing
quote, whitespace, then `<`; the captured run is trimmed. Returns `none` when
the shape is absent (e.g. a bare address). -/
def extractName (s : String) : Option String :=
  let cs := s.data
  let cs1 :=
    match cs with
    | c :: rest => if c.toNat = 34 then rest else cs
    | [] => []
  let name := cs1.takeWhile (fun c => c.toNat != 34 && c.toNat != 60)
  if name.isEmpty then none
  else
    let rest := cs1.drop name.length
    let rest1 :=
      match rest with
      | c :: r => if c.toNat = 34 then r else rest
      | [] => []
    let rest2 := rest1.dropWhile (fun c => c.isWhitespace)
    match rest2 with
    | c :: _ =>
      if c.toNat = 60 then
        some (String.mk ((name.dropWhile Char.isWhitespace).reverse.dropWhile Char.isWhitespace).reverse)
      else none
    | [] => none

/-- The worker's `findOrCreateCustomer`: search first; a thrown fetch
(network error) propagates through the rethrowing catch; a non-ok search
response is ignored and falls through to creation, as does an ok-but-empty
result list; creation throws `Failed to create customer` on a non-ok response
and propagates a network error. -/
def findOrCreateCustomerW (w : WorkerWorld) (data : CustomerData) :
    Except String Customer × List WEvent :=
  match w.searchResult data.email with
  | .netError m => (.error m, [.searchUsers data.email])
  | .ok (c :: _) => (.ok c, [.searchUsers data.email])
  | .ok [] =>
    match w.createUserResult (userPayload data) with
    | .ok c => (.ok c, [.searchUsers data.email, .createUser (userPayload data)])
    | .httpError _ _ =>
      (.error "Failed to create customer",
        [.searchUsers data.email, .createUser (userPayload data)])
    | .netError m =>
      (.error m, [.searchUsers data.email, .createUser (userPayload data)])
  | .httpError _ _ =>
    match w.createUserResult (userPayload data) with
    | .ok c => (.ok c, [.searchUsers data.email, .createUser (userPayload data)])
    | .httpError _ _ =>
      (.error "Failed to create customer",
        [.searchUsers data.email, .createUser (userPayload data)])
    | .netError m =>
      (.error m, [.searchUsers data.email, .createUser (userPayload data)])

/-- The ticket payload built by the worker's `createZammadTicket`: body is
`email.text || email.html || ''`, `content_type` decided by `email.html`
truthiness, fixed group `Users` and priority `2 normal`. -/
def mkWTicketData (email : WorkerEmail) (customer : Customer) : WTicketData :=
  { title := jsOrStr email.subject "(No Subject)"
  , group := "Users"
  , customer_id := customer.id
  , article :=
    { subject := jsOrStr email.subject "(No Subject)"
    , body := jsOrStr email.text (jsOrStr email.html "")
    , type := "email"
    , sender := "Customer"
    , fromAddr := email.fromAddr
    , toAddr := email.toAddr
    , content_type := if jsTruthy email.html then "text/html" else "text/plain"
    , internal := false }
  , priority := "2 normal"
  , state := "new" }

/-- The worker's `createZammadTicket`: `null` when no API token is configured;
any error of the customer step is caught and turned into `null`; a failed
ticket POST (non-ok response or network error) is likewise caught, logged and
turned into `null`; a successful POST returns the created ticket. -/
def createZammadTicketW (env : WorkerEnv) (w : WorkerWorld) (email : WorkerEmail) :
    Option TicketResp × List WEvent :=
  if jsTruthy env.ZAMMAD_API_TOKEN then
    let customerEmail := email.fromAddr
    let customerName := jsOrStr (extractName email.fromAddr) (localPart customerEmail)
    let data : CustomerData :=
      { email := customerEmail
      , firstname := jsFirstName customerName
      , lastname := jsLastName customerName }
    match findOrCreateCustomerW w data with
    | (.error _, evs) => (none, evs)
    | (.ok customer, evs) =>
      let td := mkWTicketData email customer
      match w.postTicketResult td with
      | .ok resp => (some resp, evs ++ [.postTicket td, .ticketCreated resp])
      | .httpError _ _ => (none, evs ++ [.postTicket td])
      | .netError _ => (none, evs ++ [.postTicket td])
  else (none, [])

/-- The worker entry point `email(message, env, ctx)`: parse, create the
Zammad ticket (which never throws), then forward when `FORWARD_TO` is set;
any exception falls into the catch block, which still forwards when
`FORWARD_TO` is set. A forward that throws inside the try block re-enters the
catch and forwards once more; a forward that throws inside the catch makes
the invocation itself fail. -/
def emailHandler (env : WorkerEnv) (w : WorkerWorld) (m : RawMsg) :
    HandlerOutcome × List WEvent :=
  match w.parseResult m with
  | .error _ =>
    match env.FORWARD_TO with
    | none => (.errorRecovered, [])
    | some addr =>
      if w.forwardOk 0 addr then (.errorRecovered, [.forward addr])
      else (.errorRaised, [.forward addr])
  | .ok email =>
    let p := createZammadTicketW env w email
    match env.FORWARD_TO with
    | none => (.completed p.fst, p.snd)
    | some addr =>
      if w.forwardOk 0 addr then (.completed p.fst, p.snd ++ [.forward addr])
      else if w.forwardOk 1 addr then
        (.errorRecovered, p.snd ++ [.forward addr, .forward addr])
      else (.errorRaised, p.snd ++ [.forward addr, .forward addr])

/-- At-least-once transport delivery: each physical delivery of the list is
processed by one independent worker invocation; the combined effect trace is
the concatenation of the per-invocation traces. -/
def processDeliveries (env : WorkerEnv) (w : WorkerWorld) (msgs : List RawMsg) :
    List WEvent :=
  (msgs.map (fun m => (emailHandler env w m).snd)).flatten

/-- Whether a worker event is a successful ticket creation. -/
def isTicketCreated : WEvent → Bool
  | .ticketCreated _ => true
  | _ => false

/-- Whether a worker event is a `/tickets` POST attempt. -/
def isPostTicketW : WEvent → Bool
  | .postTicket _ => true
  | _ => false

/-- Whether a worker event is a forwarding attempt. -/
def isForwardEv : WEvent → Bool
  | .forward _ => true
  | _ => false

/-- The non-forwarding (ticket-pipeline) part of a worker effect trace. -/
def nonForwardEvents (evs : List WEvent) : List WEvent :=
  evs.filter (fun ev => !(isForwardEv ev))

/-- Number of tickets created in a worker effect trace. -/
def ticketsCreated (evs : List WEvent) : Nat :=
  evs.countP isTicketCreated

/-! ## Specification-side definitions

`specFieldOk`/`specMatches` state rule matching in the words of the
specification ("a rule matches only if every populated match field it declares
is individually satisfied — logical AND across declared fields, OR across
keyword lists within a field, case-insensitive substring semantics"), to be
compared with the source-derived `ruleMatches`/`findMatchingRule`. -/

/-- One declared match field is satisfied: an undeclared field imposes
nothing; a declared keyword list needs some keyword to occur, case
insensitively, as a substring of the field. -/
def specFieldOk (field : String) : Option (List String) → Prop
  | none => True
  | some kws => ∃ kw ∈ kws, strContainsSub (lowerStr field) (lowerStr kw) = true

instance (field : String) (o : Option (List String)) : Decidable (specFieldOk field o) :=
  match o with
  | none => .isTrue trivial
  | some _ => List.decidableBEx _ _

/-- A rule matches a message: every declared field is satisfied (AND across
the two declared fields), against the message's `to` and `subject`. -/
def specMatches (email : EmailMsg) (r : Rule) : Prop :=
  specFieldOk (jsOrStr email.toAddr "") r.matchSpec.toContains ∧
  specFieldOk (jsOrStr email.subject "") r.matchSpec.subjectContains

instance (email : EmailMsg) (r : Rule) : Decidable (specMatches email r) :=
  inferInstanceAs (Decidable (_ ∧ _))

/-- Modelled from the spec: the external ticketing system's
`GET /users/search?query=<email>` endpoint, which is not part of this
repository's source, "is by exact email equality against the external
directory" (spec, CustomerDirectoryClient). The directory is a list of
customer records and the search returns exactly the records whose email
equals the query. -/
def dirSearch (directory : List Customer) (q : String) : List Customer :=
  directory.filter (fun c => c.email == q)

/-- A Zammad API environment whose search follows the spec's exact-equality
contract over a fixed directory, and whose creation endpoint returns a fresh
record echoing the payload. -/
def dirEnv (directory : List Customer) : ZEnv :=
  { search := fun q => .ok (dirSearch directory q)
  , createUser := fun p =>
      .ok { id := 0, firstname := p.firstname, lastname := p.lastname, email := p.email }
  , postTicket := fun _ => .ok { id := 0 } }

/-- Whether an integration-side API call is the `/users/search` GET. -/
def isSearchCall : ApiCall → Bool
  | .searchUsers _ => true
  | _ => false

/-- Whether an integration-side API call is the `/users` POST. -/
def isCreateUserCall : ApiCall → Bool
  | .createUser _ => true
  | _ => false

/-- Whether an integration-side API call is the `/tickets` POST. -/
def isPostTicketCall : ApiCall → Bool
  | .postTicket _ => true
  | _ => false

/-! ## Concrete fixtures for witnesses and counterexamples -/

/-- A customer already present in the external directory. -/
def cust1 : Customer :=
  { id := 7, firstname := "Alice", lastname := "", email := "alice@example.com" }

/-- A directory holding exactly `cust1`. -/
def directory1 : List Customer := [cust1]

/-- Customer data whose email coincides with `cust1`. -/
def data1 : CustomerData :=
  { email := "alice@example.com", firstname := "alice", lastname := "" }

/-- An enabled integration instance (token configured). -/
def integ1 : Integration :=
  { baseUrl := "https://help.vln.gg", apiToken := some "tok", enabled := true }

/-- A concrete email for the integration side. -/
def emailZ1 : EmailMsg :=
  { fromAddress := "alice@example.com", fromName := none
  , toAddr := some "sales@x.com", subject := some "Hello"
  , body := none, text := some "hi", html := none }

/-- A domain configuration with no `zammad` sub-object and no rules. -/
def dc1 : DomainConfig := { zammad := none, rules := [] }

/-- An API environment in which the ticket POST always fails with HTTP 500
while the customer search succeeds via `directory1`. -/
def env500 : ZEnv :=
  { search := fun q => .ok (dirSearch directory1 q)
  , createUser := fun p =>
      .ok { id := 9, firstname := p.firstname, lastname := p.lastname, email := p.email }
  , postTicket := fun _ => .error { status := some 500, message := "Internal Server Error" } }

/-- An API environment in which every call succeeds trivially. -/
def envTriv : ZEnv := dirEnv directory1

/-- The email with both a text and an HTML body, and the email with only an
HTML body, used against claim C4's reading of the content-type flag. -/
def emailC4a : EmailMsg :=
  { fromAddress := "alice@example.com", fromName := none
  , toAddr := some "sales@x.com", subject := some "s"
  , body := none, text := some "hello", html := some "<b>hi</b>" }

/-- See `emailC4a`. -/
def emailC4b : EmailMsg :=
  { fromAddress := "alice@example.com", fromName := none
  , toAddr := some "sales@x.com", subject := some "s"
  , body := none, text := none, html := some "<b>hi</b>" }

/-- The first rule of the specification's own first-match example:
`{toContains: ["sales"]}`. -/
def ruleSales : Rule :=
  { name := "Sales"
  , matchSpec := { toContains := some ["sales"], subjectContains := none }
  , action := { template := none, priority := none, tags := some ["sales", "lead"] } }

/-- The second rule of the specification's example: `{subjectContains: ["quote"]}`. -/
def ruleQuote : Rule :=
  { name := "Quote"
  , matchSpec := { toContains := none, subjectContains := some ["quote"] }
  , action := {} }

/-- A rule declaring neither `toContains` nor `subjectContains`. -/
def ruleCatchAll : Rule := { name := "CatchAll" }

/-- The specification's example message: to `sales@x.com`, subject `quote`. -/
def emailSQ : EmailMsg :=
  { fromAddress := "a@b.com", fromName := none
  , toAddr := some "sales@x.com", subject := some "quote"
  , body := none, text := some "please send a quote", html := none }

/-- A raw transport message (one fixed physical message). -/
def m1 : RawMsg := { raw := "raw-mime-bytes-message-id-abc" }

/-- The parsed form of `m1`. -/
def e1 : WorkerEmail :=
  { fromAddr := "alice@example.com", toAddr := "sales@example.com"
  , subject := some "Hello", text := some "hi", html := none }

/-- Worker environment with an API token and no forwarding destination. -/
def env1 : WorkerEnv :=
  { FORWARD_TO := none, ZAMMAD_URL := none, ZAMMAD_API_TOKEN := some "tok" }

/-- Worker environment with an API token and a forwarding destination. -/
def envF : WorkerEnv :=
  { FORWARD_TO := some "me@personal.example", ZAMMAD_URL := none
  , ZAMMAD_API_TOKEN := some "tok" }

/-- A worker world in which parsing yields `e1`, the search finds `cust1`,
ticket creation succeeds with ticket 101, and forwarding succeeds. -/
def okWorld : WorkerWorld :=
  { parseResult := fun _ => .ok e1
  , searchResult := fun _ => .ok [cust1]
  , createUserResult := fun p =>
      .ok { id := 8, firstname := p.firstname, lastname := p.lastname, email := p.email }
  , postTicketResult := fun _ => .ok { id := 101 }
  , forwardOk := fun _ _ => true }

/-- `okWorld` with the ticket POST failing with HTTP 500. -/
def w500 : WorkerWorld :=
  { okWorld with postTicketResult := fun _ => .httpError 500 "boom" }

/-- A forwarding transport that always fails. -/
def alwaysFailForward : Nat → String → Bool := fun _ _ => false

/-- A configuration with no API token (and `ZAMMAD_ENABLED` unset). -/
def config0 : Config :=
  { ZAMMAD_URL := none, ZAMMAD_API_TOKEN := none, ZAMMAD_ENABLED := none }

/-! ## Bridging lemmas -/

/-- The source-derived rule predicate coincides with the specification-side
one: AND across declared fields, OR across keywords, case-insensitive
substring. -/
theorem ruleMatches_iff_specMatches (email : EmailMsg) (r : Rule) :
    ruleMatches email r = true ↔ specMatches email r := by
  cases h1 : r.matchSpec.toContains <;> cases h2 : r.matchSpec.subjectContains <;>
    simp [ruleMatches, specMatches, specFieldOk, h1, h2, List.any_eq_true]

/-- The state-threaded matcher scan returns the rule list it was given. -/
theorem findMatchingRuleSt_snd (email : EmailMsg) (rules : List Rule) :
    (findMatchingRuleSt email rules).snd = rules := by
  induction rules with
  | nil => rfl
  | cons a rest ih =>
    by_cases h : ruleMatches email a = true <;>
      simp [findMatchingRuleSt, h, ih]

/-- The state-threaded matcher scan computes the same result as
`findMatchingRule`. -/
theorem findMatchingRuleSt_fst (email : EmailMsg) (rules : List Rule) :
    (findMatchingRuleSt email rules).fst = findMatchingRule email rules := by
  induction rules with
  | nil => rfl
  | cons a rest ih =>
    by_cases h : ruleMatches email a = true <;>
      simp [findMatchingRuleSt, findMatchingRule, h, ih]

/-! ## Claims -/

/-- Claim C2: for every message and rule list, `findMatchingRule` returns the
first rule in declared order all of whose declared match fields are satisfied
(AND across declared fields, OR across the keywords of a field,
case-insensitive substring matching against the message's to and subject
fields) even when a later rule would also match, and returns `none` exactly
when no rule matches. -/
theorem claim2_first_matching_rule (email : EmailMsg) (rules : List Rule) :
    (∀ r, findMatchingRule email rules = some r ↔
      ∃ pre post, rules = pre ++ r :: post ∧ specMatches email r ∧
        ∀ r' ∈ pre, ¬ specMatches email r')
    ∧ (findMatchingRule email rules = none ↔ ∀ r ∈ rules, ¬ specMatches email r) := by
  induction rules with
  | nil =>
    constructor
    · intro r
      constructor
      · intro h; cases h
      · rintro ⟨pre, post, hsplit, -, -⟩
        exact absurd (List.append_eq_nil.mp hsplit.symm).2 (List.cons_ne_nil r post)
    · simp [findMatchingRule]
  | cons a rest ih =>
    by_cases ha : specMatches email a
    · have hm : ruleMatches email a = true := (ruleMatches_iff_specMatches email a).mpr ha
      constructor
      · intro r
        constructor
        · intro h
          simp only [findMatchingRule, hm, if_true] at h
          cases h
          exact ⟨[], rest, rfl, ha, by simp⟩
        · rintro ⟨pre, post, hsplit, hr, hpre⟩
          cases pre with
          | nil =>
            have h1 : a = r := List.head_eq_of_cons_eq (by simpa using hsplit)
            subst h1
            simp [findMatchingRule, hm]
          | cons b pre' => exact absurd ha (by
              have hb : a = b := List.head_eq_of_cons_eq (by simpa using hsplit)
              have hnb := hpre b (List.mem_cons_self b pre')
              rw [hb]; exact hnb)
      · constructor
        · intro h
          simp [findMatchingRule, hm] at h
        · intro h
          exact absurd ha (h a (List.mem_cons_self a rest))
    · have hm : ruleMatches email a = false := by
        cases hmm : ruleMatches email a
        · rfl
        · exact absurd ((ruleMatches_iff_specMatches email a).mp hmm) ha
      have hstep : findMatchingRule email (a :: rest) = findMatchingRule email rest := by
        simp [findMatchingRule, hm]
      constructor
      · intro r
        rw [hstep, (ih.1 r)]
        constructor
        · rintro ⟨pre, post, hsplit, hr, hpre⟩
          refine ⟨a :: pre, post, by simp [hsplit], hr, ?_⟩
          intro r' hr'
          rcases List.mem_cons.mp hr' with h | h
          · rw [h]; exact ha
          · exact hpre r' h
        · rintro ⟨pre, post, hsplit, hr, hpre⟩
          cases pre with
          | nil =>
            have h1 : a = r := List.head_eq_of_cons_eq (by simpa using hsplit)
            exact absurd (by rw [h1]; exact hr) ha
          | cons b pre' =>
            have h2 : rest = pre' ++ r :: post := List.tail_eq_of_cons_eq (by simpa using hsplit)
            exact ⟨pre', post, h2, hr, fun r' h => hpre r' (List.mem_cons_of_mem b h)⟩
      · rw [hstep, ih.2]
        constructor
        · intro h r hrm
          rcases List.mem_cons.mp hrm with h1 | h1
          · rw [h1]; exact ha
          · exact h r h1
        · intro h r hrm
          exact h r (List.mem_cons_of_mem a hrm)

/-- Witness for claim C2 at the specification's own example: against rules
`[{toContains:["sales"]}, {subjectContains:["quote"]}]` and a message to
`sales@x.com` with subject `quote`, the first rule is returned although the
second also matches. -/
theorem claim2_first_matching_rule_witness :
    findMatchingRule emailSQ [ruleSales, ruleQuote] = some ruleSales ∧
    specMatches emailSQ ruleQuote :=
  ⟨((claim2_first_matching_rule emailSQ [ruleSales, ruleQuote]).1 ruleSales).mpr
      ⟨[], [ruleQuote], rfl, by decide, by simp⟩,
    by decide⟩

/-- Claim C8: `findMatchingRule` leaves the rule list and the domain
configuration unchanged — the state-threaded rendering of its scan returns
the rules (and the enclosing domain configuration) exactly as given, while
computing the same result as `findMatchingRule`. -/
theorem claim8_matcher_mutates_nothing (email : EmailMsg) (rules : List Rule)
    (dc : DomainConfig) :
    (findMatchingRuleSt email rules).snd = rules
    ∧ (findMatchingRuleSt email rules).fst = findMatchingRule email rules
    ∧ (findMatchingRuleDc email dc).snd = dc :=
  ⟨findMatchingRuleSt_snd email rules, findMatchingRuleSt_fst email rules, by
    show ({ dc with rules := (findMatchingRuleSt email dc.rules).snd } : DomainConfig) = dc
    rw [findMatchingRuleSt_snd]⟩

/-- Claim C9: a rule declaring neither `toContains` nor `subjectContains`
matches every message, and when it heads the rule list `findMatchingRule`
returns it for every input. -/
theorem claim9_empty_match_always_matches (email : EmailMsg) (r : Rule)
    (rest : List Rule) (h1 : r.matchSpec.toContains = none)
    (h2 : r.matchSpec.subjectContains = none) :
    ruleMatches email r = true ∧ findMatchingRule email (r :: rest) = some r := by
  have hm : ruleMatches email r = true := by
    simp [ruleMatches, h1, h2]
  exact ⟨hm, by simp [findMatchingRule, hm]⟩

/-- Witness for claim C9: the catch-all rule wins over the sales rule for the
example message. -/
theorem claim9_empty_match_always_matches_witness :
    ruleMatches emailSQ ruleCatchAll = true ∧
    findMatchingRule emailSQ [ruleCatchAll, ruleSales] = some ruleCatchAll :=
  claim9_empty_match_always_matches emailSQ ruleCatchAll [ruleSales] rfl rfl

/-- Claim C3: against a search endpoint satisfying the spec's exact-email
contract, `findOrCreateCustomer` always searches first (the search is the
first upstream call), issues a creation request exactly when the search
returned no results, and when results exist the customer it returns has the
queried email. -/
theorem claim3_search_before_create (directory : List Customer) (env : ZEnv)
    (d : CustomerData)
    (hs : env.search d.email = Except.ok (dirSearch directory d.email)) :
    (findOrCreateCustomer env d).snd.head? = some (ApiCall.searchUsers d.email)
    ∧ (ApiCall.createUser (userPayload d) ∈ (findOrCreateCustomer env d).snd
        ↔ dirSearch directory d.email = [])
    ∧ (∀ c, (findOrCreateCustomer env d).fst = Except.ok c →
        dirSearch directory d.email ≠ [] → c.email = d.email) := by
  cases hd : dirSearch directory d.email with
  | nil =>
    rw [hd] at hs
    cases hc : env.createUser (userPayload d) <;>
      simp [findOrCreateCustomer, hs, hc, hd]
  | cons c0 cs =>
    rw [hd] at hs
    have hmem : (c0.email == d.email) = true := by
      have hmem0 : c0 ∈ dirSearch directory d.email := by
        rw [hd]; exact List.mem_cons_self c0 cs
      exact (List.mem_filter.mp hmem0).2
    refine ⟨?_, ?_, ?_⟩
    · simp [findOrCreateCustomer, hs]
    · simp [findOrCreateCustomer, hs, hd]
    · intro c hc _
      have hc0 : c0 = c := by
        simpa [findOrCreateCustomer, hs] using hc
      rw [← hc0]
      exact eq_of_beq hmem

/-- Witness for claim C3: with `cust1` already in the directory, the lookup
for `data1` returns `cust1` (whose email is the queried one), searches first,
and issues no creation request. -/
theorem claim3_search_before_create_witness :
    ((findOrCreateCustomer (dirEnv directory1) data1).snd.head?
        = some (ApiCall.searchUsers data1.email))
    ∧ cust1.email = data1.email
    ∧ ¬ (ApiCall.createUser (userPayload data1)
          ∈ (findOrCreateCustomer (dirEnv directory1) data1).snd) :=
  have h := claim3_search_before_create directory1 (dirEnv directory1) data1 rfl
  ⟨h.1, h.2.2 cust1 rfl (by decide), fun hmem => by
    have := (h.2.1).mp hmem
    exact absurd this (by decide)⟩

/-- Claim C10: when the integration is disabled — `ZAMMAD_ENABLED` set to
`'false'`, or no API token so the constructor disables it — `createTicket`
returns `null` and issues no upstream call at all (no customer search, no
customer creation, no ticket submission). -/
theorem claim10_disabled_no_calls (config : Config) (env : ZEnv) (email : EmailMsg)
    (dc : DomainConfig)
    (h : config.ZAMMAD_ENABLED = some "false" ∨ jsTruthy config.ZAMMAD_API_TOKEN = false) :
    createTicket (mkIntegration config) env email dc = (Except.ok none, []) := by
  have hen : (mkIntegration config).enabled = false := by
    rcases h with h | h
    · simp [mkIntegration, h]
    · simp only [mkIntegration, h]
      cases h0 : (!(config.ZAMMAD_ENABLED == some "false")) <;> simp [h0]
  simp [createTicket, hen]

/-- Witness for claim C10: with no API token configured the constructor
disables the integration and `createTicket` is inert. -/
theorem claim10_disabled_no_calls_witness :
    createTicket (mkIntegration config0) envTriv emailZ1 dc1 = (Except.ok none, []) :=
  claim10_disabled_no_calls config0 envTriv emailZ1 dc1 (Or.inr rfl)

/-- A falsy optional string falls through `jsOrStr` to the default. -/
theorem jsOrStr_of_falsy (o : Option String) (d : String) (h : jsTruthy o = false) :
    jsOrStr o d = d := by
  cases o with
  | none => rfl
  | some v =>
    have hv : v = "" := by simpa [jsTruthy] using h
    simp [jsOrStr, hv]

/-- A non-empty string wins in `jsOrStr`. -/
theorem jsOrStr_some_ne {v : String} (d : String) (h : v ≠ "") :
    jsOrStr (some v) d = v := by
  simp [jsOrStr, h]

/-- Characterisation of string falsiness. -/
theorem jsTruthy_eq_false_iff (o : Option String) :
    jsTruthy o = false ↔ o = none ∨ o = some "" := by
  cases o with
  | none => simp [jsTruthy]
  | some v => simp [jsTruthy]

/-- Claim C4 (amended): the payload built by `createTicket` has title (and
article subject) equal to the message subject, with placeholder
`(No Subject)` when the subject is absent or empty; article body from the
email's `body` or `text` field (empty when both are falsy — the HTML body is
never placed in the article); content type `text/html` exactly when the email
has a (non-empty) HTML body, `text/plain` otherwise, regardless of which body
was placed in the article; priority from the domain's `zammad` configuration
or the default `2 normal`; tags comma-joined from the matched rule's action;
and state always `new`. -/
theorem claim4_amended_ticket_payload (email : EmailMsg) (dc : DomainConfig)
    (c : Customer) :
    (∀ s, email.subject = some s → s ≠ "" → (mkTicketData email dc c).title = s)
    ∧ (email.subject = none ∨ email.subject = some "" →
        (mkTicketData email dc c).title = "(No Subject)")
    ∧ (mkTicketData email dc c).state = "new"
    ∧ ((mkTicketData email dc c).article.content_type = "text/html"
        ↔ jsTruthy email.html = true)
    ∧ ((mkTicketData email dc c).article.content_type = "text/plain"
        ↔ jsTruthy email.html = false)
    ∧ (∀ b, email.body = some b → b ≠ "" → (mkTicketData email dc c).article.body = b)
    ∧ (jsTruthy email.body = false → ∀ t, email.text = some t → t ≠ "" →
        (mkTicketData email dc c).article.body = t)
    ∧ (jsTruthy email.body = false → jsTruthy email.text = false →
        (mkTicketData email dc c).article.body = "")
    ∧ (∀ zc p, dc.zammad = some zc → zc.priority = some p → p ≠ "" →
        (mkTicketData email dc c).priority = p)
    ∧ (dc.zammad = none → (mkTicketData email dc c).priority = "2 normal")
    ∧ (∀ r ts, findMatchingRule email dc.rules = some r → r.action.tags = some ts →
        (mkTicketData email dc c).tags = some (joinWith "," ts))
    ∧ (findMatchingRule email dc.rules = none → (mkTicketData email dc c).tags = none) := by
  refine ⟨?_, ?_, rfl, ?_, ?_, ?_, ?_, ?_, ?_, ?_, ?_, ?_⟩
  · intro s hs hne
    show jsOrStr email.subject "(No Subject)" = s
    rw [hs]
    exact jsOrStr_some_ne _ hne
  · intro h
    show jsOrStr email.subject "(No Subject)" = "(No Subject)"
    rcases h with h | h <;> rw [h] <;> simp [jsOrStr]
  · show (if jsTruthy email.html then "text/html" else "text/plain") = "text/html" ↔ _
    cases jsTruthy email.html <;> simp
  · show (if jsTruthy email.html then "text/html" else "text/plain") = "text/plain" ↔ _
    cases jsTruthy email.html <;> simp
  · intro b hb hne
    show jsOrStr email.body (jsOrStr email.text "") = b
    rw [hb]
    exact jsOrStr_some_ne _ hne
  · intro hb t ht hne
    show jsOrStr email.body (jsOrStr email.text "") = t
    rw [jsOrStr_of_falsy _ _ hb, ht]
    exact jsOrStr_some_ne _ hne
  · intro hb ht
    show jsOrStr email.body (jsOrStr email.text "") = ""
    rw [jsOrStr_of_falsy _ _ hb, jsOrStr_of_falsy _ _ ht]
  · intro zc p hzc hp hne
    show jsOrStr (dc.zammad.getD {}).priority "2 normal" = p
    rw [hzc, Option.getD_some, hp]
    exact jsOrStr_some_ne _ hne
  · intro h
    show jsOrStr (dc.zammad.getD {}).priority "2 normal" = "2 normal"
    rw [h]
    rfl
  · intro r ts hr hts
    show ticketTags email dc.rules = some (joinWith "," ts)
    cases hrl : dc.rules with
    | nil =>
      rw [hrl] at hr
      simp [findMatchingRule] at hr
    | cons a l =>
      rw [hrl] at hr
      simp [ticketTags, hr, hts]
  · intro h
    show ticketTags email dc.rules = none
    cases hrl : dc.rules with
    | nil => rfl
    | cons a l =>
      rw [hrl] at h
      simp [ticketTags, h]

/-- Counterexample to claim C4 as stated: for an email with both a text and
an HTML body the article body is the text body while the content type is
`text/html` (the claim requires `text/plain` when the placed body is the text
one); for an email with only an HTML body the article body is empty — the
HTML body is never placed in the article — yet the content type is again
`text/html`. -/
theorem claim4_content_type_counterexample :
    (mkTicketData emailC4a dc1 cust1).article.body = "hello"
    ∧ (mkTicketData emailC4a dc1 cust1).article.content_type = "text/html"
    ∧ (mkTicketData emailC4a dc1 cust1).article.content_type ≠ "text/plain"
    ∧ (mkTicketData emailC4b dc1 cust1).article.body = ""
    ∧ (mkTicketData emailC4b dc1 cust1).article.content_type = "text/html" :=
  ⟨rfl, rfl, by decide, rfl, rfl⟩

/-- Witness for claim C4 (amended) at a concrete email: subject `Hello` is
kept as title, and with no HTML body the content type is `text/plain`. -/
theorem claim4_amended_ticket_payload_witness :
    (mkTicketData emailZ1 dc1 cust1).title = "Hello"
    ∧ (mkTicketData emailZ1 dc1 cust1).article.content_type = "text/plain" :=
  ⟨(claim4_amended_ticket_payload emailZ1 dc1 cust1).1 "Hello" rfl (by decide),
    ((claim4_amended_ticket_payload emailZ1 dc1 cust1).2.2.2.2.1).mpr rfl⟩

/-- Claim C5 (amended): when the integration is enabled, the customer step
succeeded, and the `/tickets` POST fails, `ZammadIntegration.createTicket`
propagates exactly the upstream error (which carries the upstream status and
message) and never returns a success value; the worker's `createZammadTicket`
instead logs such a failure and returns `null` (see the counterexample). -/
theorem claim5_amended_error_propagation (integ : Integration) (env : ZEnv)
    (email : EmailMsg) (dc : DomainConfig) (c : Customer) (e : UpstreamError)
    (hen : integ.enabled = true)
    (hcust : (findOrCreateCustomer env (customerDataOf email)).fst = Except.ok c)
    (hpost : env.postTicket (mkTicketData email dc c) = Except.error e) :
    (createTicket integ env email dc).fst = Except.error e
    ∧ ∀ t, (createTicket integ env email dc).fst ≠ Except.ok t := by
  have hmain : (createTicket integ env email dc).fst = Except.error e := by
    unfold createTicket
    rw [hen]
    rcases hfc : findOrCreateCustomer env (customerDataOf email) with ⟨res, evs⟩
    rw [hfc] at hcust
    simp only at hcust
    subst hcust
    simp [hpost]
  exact ⟨hmain, fun t => by rw [hmain]; simp⟩

/-- Witness for claim C5 (amended): the concrete 500 failure is propagated
verbatim. -/
theorem claim5_amended_error_propagation_witness :
    (createTicket integ1 env500 emailZ1 dc1).fst
      = Except.error { status := some 500, message := "Internal Server Error" } :=
  (claim5_amended_error_propagation integ1 env500 emailZ1 dc1 cust1
    { status := some 500, message := "Internal Server Error" } rfl rfl rfl).1

/-- Counterexample to claim C5 as stated for the worker implementation the
claim also cites: when the `/tickets` POST fails with HTTP 500 the worker's
`createZammadTicket` returns `null` — the same value as when the integration
is unconfigured — surfacing no error value although the POST was attempted
exactly once. -/
theorem claim5_worker_swallows_failure_counterexample :
    (createZammadTicketW env1 w500 e1).fst = none
    ∧ (createZammadTicketW env1 w500 e1).snd.countP isPostTicketW = 1 :=
  ⟨rfl, rfl⟩

/-- The upstream calls issued by one `findOrCreateCustomer` invocation: the
search alone, or the search followed by exactly one creation request. -/
theorem findOrCreateCustomer_snd_shape (env : ZEnv) (d : CustomerData) :
    (findOrCreateCustomer env d).snd = [ApiCall.searchUsers d.email]
    ∨ (findOrCreateCustomer env d).snd
        = [ApiCall.searchUsers d.email, ApiCall.createUser (userPayload d)] := by
  unfold findOrCreateCustomer
  cases hs : env.search d.email with
  | error e => left; rfl
  | ok cs =>
    cases cs with
    | nil => cases hc : env.createUser (userPayload d) <;> (right; rfl)
    | cons c rest => left; rfl

/-- Claim C6 (amended): no retry logic exists — within one `createTicket`
invocation each upstream operation (customer search, customer creation,
ticket submission) is issued at most once, whatever the responses are; in
particular neither a 5xx nor a 4xx response is ever retried. -/
theorem claim6_amended_no_retry (integ : Integration) (env : ZEnv)
    (email : EmailMsg) (dc : DomainConfig) :
    (createTicket integ env email dc).snd.countP isSearchCall ≤ 1
    ∧ (createTicket integ env email dc).snd.countP isCreateUserCall ≤ 1
    ∧ (createTicket integ env email dc).snd.countP isPostTicketCall ≤ 1 := by
  by_cases hen : integ.enabled = true
  · have hsh := findOrCreateCustomer_snd_shape env (customerDataOf email)
    rcases hfc : findOrCreateCustomer env (customerDataOf email) with ⟨res, evs⟩
    rw [hfc] at hsh
    simp only at hsh
    unfold createTicket
    rw [hen, hfc]
    rcases res with e | c
    · rcases hsh with h | h <;> rw [h] <;>
        simp [List.countP_cons, isSearchCall, isCreateUserCall, isPostTicketCall]
    · cases hp : env.postTicket (mkTicketData email dc c) <;>
        rcases hsh with h | h <;> rw [h] <;>
          simp [hp, List.countP_append, List.countP_cons,
            isSearchCall, isCreateUserCall, isPostTicketCall]
  · simp [createTicket, hen]

/-- Counterexample to claim C6 as stated: a ticket submission failing with a
transient HTTP 500 is attempted exactly once — it is not retried. -/
theorem claim6_no_retry_counterexample :
    env500.postTicket (mkTicketData emailZ1 dc1 cust1)
      = Except.error { status := some 500, message := "Internal Server Error" }
    ∧ (createTicket integ1 env500 emailZ1 dc1).snd.countP isPostTicketCall = 1 :=
  ⟨rfl, rfl⟩

/-- The ticket-creation part of a worker invocation is computed without
consulting the forwarding transport. -/
theorem createZammadTicketW_forward_frame (env : WorkerEnv) (w : WorkerWorld)
    (f : Nat → String → Bool) (email : WorkerEmail) :
    createZammadTicketW env { w with forwardOk := f } email
      = createZammadTicketW env w email := rfl

/-- Claim C7: when a forwarding destination is configured, every inbound
message leads to a forwarding attempt whatever the pipeline outcome (ticket
created, ticket creation failed, or parsing error — the quantification over
arbitrary worlds `w` covers all of these), and the ticket-creation part of
the effect trace is unchanged under any replacement of the forwarding
transport, so a forwarding failure cannot prevent ticket creation and a
ticket-creation failure cannot prevent forwarding. -/
theorem claim7_forwarding_independent (env : WorkerEnv) (w : WorkerWorld)
    (f : Nat → String → Bool) (m : RawMsg) (addr : String)
    (h : env.FORWARD_TO = some addr) :
    WEvent.forward addr ∈ (emailHandler env w m).snd
    ∧ nonForwardEvents (emailHandler env { w with forwardOk := f } m).snd
      = nonForwardEvents (emailHandler env w m).snd := by
  have hparse : ({ w with forwardOk := f } : WorkerWorld).parseResult = w.parseResult := rfl
  cases hp : w.parseResult m with
  | error err =>
    constructor
    · simp only [emailHandler, hp, h]
      repeat' split
      all_goals simp
    · simp only [emailHandler, hparse, hp, h]
      repeat' split
      all_goals simp [nonForwardEvents, isForwardEv]
  | ok email =>
    have hframe := createZammadTicketW_forward_frame env w f email
    constructor
    · simp only [emailHandler, hp, h]
      repeat' split
      all_goals simp
    · simp only [emailHandler, hparse, hp, h, hframe]
      repeat' split
      all_goals simp [nonForwardEvents, List.filter_append, isForwardEv]

/-- Witness for claim C7: with forwarding configured and a transport that
always fails, the forwarding attempt still appears and the ticket-creation
trace is identical to the one under a succeeding transport. -/
theorem claim7_forwarding_independent_witness :
    WEvent.forward "me@personal.example" ∈ (emailHandler envF okWorld m1).snd
    ∧ nonForwardEvents
        (emailHandler envF { okWorld with forwardOk := alwaysFailForward } m1).snd
      = nonForwardEvents (emailHandler envF okWorld m1).snd :=
  claim7_forwarding_independent envF okWorld alwaysFailForward m1
    "me@personal.example" rfl

/-- Claim C1 (code bug): the worker entry point performs no deduplication.
Delivering the same physical message (one fixed transport message) twice —
with the API token configured and every upstream call succeeding — creates
two tickets, one per delivery, where the claim and the specification's
at-most-once property require exactly one across both deliveries. -/
theorem claim1_duplicate_delivery_creates_two_tickets :
    ticketsCreated (processDeliveries env1 okWorld [m1, m1]) = 2
    ∧ ticketsCreated (processDeliveries env1 okWorld [m1]) = 1 :=
  ⟨rfl, rfl⟩
